import Mathlib

/-!
Verification of the Elevate charter-quote backend.

The development shallowly embeds `backend/core/models.py`,
`backend/core/repository.py`, `backend/core/services.py` and the quote
path of `backend/core/views.py`.

Conventions of the embedding:
* Python `Decimal` values are rationals (`ℚ`): `Decimal` arithmetic on the
  values appearing here (sums, products) is exact, as is `ℚ`.
* Python `date` values are their proleptic-Gregorian ordinals (`ℤ`), the
  value of `date.toordinal()`: subtraction of dates is subtraction of
  ordinals, and ordinal 1 (0001-01-01) is a Monday, so
  `weekday() = (ordinal - 1) % 7`.
* `date.today()` is passed around explicitly as a `today : Int` argument.
* Python strings are lists of characters (`List Char`); `str.lower`,
  `str.upper` and `str.strip` are mapped over them.
* The float distance handed by `TripService.process_trip_request` to
  `PricingService.calculate_leg_pricing` (where it is converted by
  `Decimal(str(billable_nm))`) is modelled as an explicit rational
  parameter `distance_nm : ℚ` of `process_trip_request`; latitude and
  longitude, which only feed the Haversine formula, are the real numbers
  denoted by the source's decimal literals.
-/

namespace Elevate

/-- A Python string, as the list of its characters. -/
abbrev Token := List Char

/-- `str.lower()` (ASCII, as for all tokens appearing in the catalogs). -/
def lowerTok (t : Token) : Token := t.map Char.toLower

/-- `str.upper()`. -/
def upperTok (t : Token) : Token := t.map Char.toUpper

/-- `str.strip()`: drop whitespace from both ends. -/
def stripTok (t : Token) : Token :=
  ((t.dropWhile Char.isWhitespace).reverse.dropWhile Char.isWhitespace).reverse

/-- `models.Airport`. -/
structure Airport where
  iata_code : Token
  city : Token
  latitude : ℚ
  longitude : ℚ
deriving DecidableEq

/-- `models.Aircraft`. -/
structure Aircraft where
  type : String
  capacity : Nat
  base_nm_rate : ℚ
  range_nm : Nat
  cruise_speed : Nat
  amenities : String
deriving DecidableEq

/-- `Aircraft.can_accommodate`: `passengers <= self.capacity`. -/
def Aircraft.can_accommodate (ac : Aircraft) (passengers : Int) : Bool :=
  passengers ≤ (ac.capacity : Int)

/-- `models.TripRequest` (origin/destination are raw tokens). -/
structure TripRequest where
  origin : Token
  destination : Token
  departure_date : Int
  return_date : Option Int
  passengers : Int
deriving DecidableEq

/-- `models.PricingBreakdown`. -/
structure PricingBreakdown where
  billable_nm : ℚ
  base_nm_rate : ℚ
  base_cost : ℚ
  landing_fee : ℚ
  segment_fee : ℚ
  lead_time_multiplier : ℚ
  weekend_multiplier : ℚ
  subtotal : ℚ
  taxes : ℚ
  total_usd : ℚ
deriving DecidableEq

/-- `models.FlightLeg`. -/
structure FlightLeg where
  origin : Token
  destination : Token
  distance_nm : ℚ
  pricing : PricingBreakdown
deriving DecidableEq

/-- `models.AircraftOption`. -/
structure AircraftOption where
  aircraft : Aircraft
  total_price_usd : ℚ
  outbound_leg : FlightLeg
  return_leg : Option FlightLeg
  is_recommended : Bool
deriving DecidableEq

/-- `models.QuoteResponse`. -/
structure QuoteResponse where
  trip_request : TripRequest
  aircraft_options : List AircraftOption
  recommended_aircraft : AircraftOption
deriving DecidableEq

/-! ### Airport repository (`repository.AirportRepository`) -/

/-- A Python-dict insertion on an association list: an existing key keeps
its position and gets the new value, a new key is appended at the end. -/
def dictInsert {β : Type} (k : Token) (v : β) : List (Token × β) → List (Token × β)
  | [] => [(k, v)]
  | (k', v') :: rest =>
    if k' = k then (k, v) :: rest else (k', v') :: dictInsert k v rest

/-- Python-dict lookup on an association list. -/
def lookupTok {β : Type} (k : Token) (m : List (Token × β)) : Option β :=
  (m.find? (fun kv => decide (kv.1 = k))).map (fun kv => kv.2)

/-- The `airports_data` rows of `AirportRepository._initialize_airports`. -/
def airportsList : List Airport :=
  [⟨"JFK".data, "New York".data, mkRat 406413 10000, mkRat (-737781) 10000⟩,
   ⟨"EWR".data, "Newark".data, mkRat 406895 10000, mkRat (-741745) 10000⟩,
   ⟨"LGA".data, "New York".data, mkRat 407769 10000, mkRat (-738740) 10000⟩,
   ⟨"BOS".data, "Boston".data, mkRat 423656 10000, mkRat (-710096) 10000⟩,
   ⟨"MIA".data, "Miami".data, mkRat 257959 10000, mkRat (-802870) 10000⟩,
   ⟨"FLL".data, "Fort Lauderdale".data, mkRat 260726 10000, mkRat (-801527) 10000⟩,
   ⟨"LAX".data, "Los Angeles".data, mkRat 339416 10000, mkRat (-1184085) 10000⟩,
   ⟨"SFO".data, "San Francisco".data, mkRat 376213 10000, mkRat (-1223790) 10000⟩,
   ⟨"LAS".data, "Las Vegas".data, mkRat 360840 10000, mkRat (-1151537) 10000⟩,
   ⟨"ORD".data, "Chicago".data, mkRat 419742 10000, mkRat (-879073) 10000⟩,
   ⟨"DFW".data, "Dallas".data, mkRat 328998 10000, mkRat (-970403) 10000⟩,
   ⟨"SEA".data, "Seattle".data, mkRat 474502 10000, mkRat (-1223088) 10000⟩]

/-- `self._airports`: the dict from IATA code to airport built by the
initialization loop. -/
def airportsTable : List (Token × Airport) :=
  airportsList.foldl (fun m a => dictInsert a.iata_code a m) []

/-- `self._city_to_iatas` right after the airport loop (before aliases):
for each airport, append its IATA code to the list at key
`city.lower()`. -/
def cityToIatasBase : List (Token × List Token) :=
  airportsList.foldl
    (fun m a =>
      let key := lowerTok a.city
      match lookupTok key m with
      | some v => dictInsert key (v ++ [a.iata_code]) m
      | none => dictInsert key [a.iata_code] m)
    []

/-- `self._city_aliases`. -/
def cityAliases : List (Token × Token) :=
  [("la".data, "Los Angeles".data),
   ("nyc".data, "New York".data),
   ("ny".data, "New York".data),
   ("vegas".data, "Las Vegas".data),
   ("sf".data, "San Francisco".data),
   ("miami".data, "Miami".data),
   ("chicago".data, "Chicago".data),
   ("dallas".data, "Dallas".data),
   ("seattle".data, "Seattle".data),
   ("boston".data, "Boston".data)]

/-- `self._city_to_iatas` after the alias loop: for each alias whose city
is a known key, bind the alias to that city's IATA list. -/
def cityToIatas : List (Token × List Token) :=
  cityAliases.foldl
    (fun m al =>
      match lookupTok (lowerTok al.2) m with
      | some v => dictInsert al.1 v m
      | none => m)
    cityToIatasBase

/-- `self._airports[iata]` applied to the head of an IATA list (the
`[0]` indexing in `find_airport`). -/
def firstAirportOf : List Token → Option Airport
  | [] => none
  | i :: _ => lookupTok i airportsTable

/-- `AirportRepository.find_airport`: strip the token, then
(1) direct IATA code, (2) exact city name or alias, (3) substring match
over the `_city_to_iatas` keys, requiring at least 3 characters. -/
def find_airport (token : Token) : Option Airport :=
  let t := stripTok token
  match lookupTok (upperTok t) airportsTable with
  | some ap => some ap
  | none =>
    let city := lowerTok t
    match lookupTok city cityToIatas with
    | some iatas => firstAirportOf iatas
    | none =>
      match cityToIatas.find? (fun kv => decide (city <:+: kv.1 ∧ 3 ≤ city.length)) with
      | some kv => firstAirportOf kv.2
      | none => none

/-- Resolution cascade as the spec words it: stages (1) and (2) as in
`find_airport`, but stage (3) substring-matches against the known city
names only (the pre-alias keys), first match in insertion order, and
only for tokens of at least 3 characters. -/
def find_airport_spec (token : Token) : Option Airport :=
  let t := stripTok token
  match lookupTok (upperTok t) airportsTable with
  | some ap => some ap
  | none =>
    let city := lowerTok t
    match lookupTok city cityToIatas with
    | some iatas => firstAirportOf iatas
    | none =>
      match cityToIatasBase.find? (fun kv => decide (city <:+: kv.1 ∧ 3 ≤ city.length)) with
      | some kv => firstAirportOf kv.2
      | none => none

/-! ### Aircraft repository (`repository.AircraftRepository`) -/

/-- Catalog row 1. -/
def veryLightJet : Aircraft := ⟨"Very Light Jet", 4, 9, 1200, 400, "Basic comfort"⟩

/-- Catalog row 2. -/
def lightJet : Aircraft := ⟨"Light Jet", 7, 11, 1500, 450, "Enhanced comfort"⟩

/-- Catalog row 3. -/
def midsizeJet : Aircraft := ⟨"Midsize Jet", 9, mkRat 27 2, 2000, 500, "Premium comfort"⟩

/-- Catalog row 4. -/
def superMidsize : Aircraft := ⟨"Super Midsize", 10, 15, 2500, 550, "Luxury comfort"⟩

/-- Catalog row 5. -/
def heavyJet : Aircraft := ⟨"Heavy Jet", 16, 18, 3000, 600, "Ultra luxury"⟩

/-- `AircraftRepository._aircraft`, in catalog order. -/
def aircraftCatalog : List Aircraft :=
  [veryLightJet, lightJet, midsizeJet, superMidsize, heavyJet]

/-- `AircraftRepository.get_aircraft_by_capacity`. -/
def get_aircraft_by_capacity (passengers : Int) : List Aircraft :=
  aircraftCatalog.filter (fun ac => ac.can_accommodate passengers)

/-- `AircraftRepository.get_recommended_aircraft`: the first suitable
aircraft, falling back to the last catalog entry (`self._aircraft[-1]`)
when none is suitable. -/
def get_recommended_aircraft (passengers : Int) : Aircraft :=
  match get_aircraft_by_capacity passengers with
  | [] => aircraftCatalog.getLastD veryLightJet
  | a :: _ => a

/-! ### Pricing service (`services.PricingService`) -/

/-- `PricingService.TAX_RATE = Decimal("0.075")`. -/
def TAX_RATE : ℚ := 75/1000

/-- `PricingService.LANDING_FEE = Decimal("600")`. -/
def LANDING_FEE : ℚ := 600

/-- `PricingService.SEGMENT_FEE = Decimal("350")`. -/
def SEGMENT_FEE : ℚ := 350

/-- `PricingService.MIN_BILLABLE_NM = 250`. -/
def MIN_BILLABLE_NM : ℚ := 250

/-- `PricingService.calculate_lead_time_multiplier` with its `base_date`
argument made explicit (the source defaults it to `date.today()`). -/
def calculate_lead_time_multiplier (departure_date base_date : Int) : ℚ :=
  if departure_date - base_date ≤ 3 then 13/10
  else if departure_date - base_date ≤ 7 then 23/20
  else 1

/-- `date.weekday()` of an ordinal day number (ordinal 1 is a Monday). -/
def weekday (d : Int) : Int := (d - 1) % 7

/-- `PricingService.calculate_weekend_multiplier` (Saturday = 5,
Sunday = 6). -/
def calculate_weekend_multiplier (departure_date : Int) : ℚ :=
  if weekday departure_date = 5 ∨ weekday departure_date = 6 then 11/10 else 1

/-- `PricingService.calculate_leg_pricing`, with `date.today()` (used via
the defaulted `base_date` of the lead-time multiplier) passed explicitly
as `today`. -/
def calculate_leg_pricing (today : Int) (distance_nm : ℚ) (aircraft : Aircraft)
    (departure_date : Int) : PricingBreakdown :=
  let billable_nm := max distance_nm MIN_BILLABLE_NM
  let base_cost := aircraft.base_nm_rate * billable_nm
  let lead_time_mult := calculate_lead_time_multiplier departure_date today
  let weekend_mult := calculate_weekend_multiplier departure_date
  let total_multiplier := lead_time_mult * weekend_mult
  let subtotal := (base_cost + LANDING_FEE + SEGMENT_FEE) * total_multiplier
  let taxes := subtotal * TAX_RATE
  let total := subtotal + taxes
  ⟨billable_nm, aircraft.base_nm_rate, base_cost, LANDING_FEE, SEGMENT_FEE,
   lead_time_mult, weekend_mult, subtotal, taxes, total⟩

/-! ### Haversine distance (`PricingService.calculate_distance`) -/

/-- `PricingService.EARTH_RADIUS_NM`. -/
noncomputable def EARTH_RADIUS_NM : ℝ := 3440.065

/-- The inner `to_radians` helper of `calculate_distance`. -/
noncomputable def to_radians (degrees : ℚ) : ℝ := (degrees : ℝ) * Real.pi / 180

/-- The intermediate haversine term
`sin(dlat/2)**2 + cos(lat1)*cos(lat2)*sin(dlon/2)**2`. -/
noncomputable def haversine_a (origin destination : Airport) : ℝ :=
  let lat1 := to_radians origin.latitude
  let lon1 := to_radians origin.longitude
  let lat2 := to_radians destination.latitude
  let lon2 := to_radians destination.longitude
  let dlat := lat2 - lat1
  let dlon := lon2 - lon1
  Real.sin (dlat / 2) ^ 2 +
    Real.cos lat1 * Real.cos lat2 * Real.sin (dlon / 2) ^ 2

/-- `PricingService.calculate_distance`:
`c = 2 * asin(min(1, sqrt(a)))`, result `EARTH_RADIUS_NM * c`. -/
noncomputable def calculate_distance (origin destination : Airport) : ℝ :=
  EARTH_RADIUS_NM *
    (2 * Real.arcsin (min 1 (Real.sqrt (haversine_a origin destination))))

/-! ### Trip service (`services.TripService`) -/

/-- The body of the per-aircraft loop of
`TripService.process_trip_request`: build one `AircraftOption` from the
resolved airports, the shared leg distance and the recommended aircraft.
`distance_nm` is the exact decimal image of the shared float distance. -/
def build_option (today : Int) (req : TripRequest) (origin_airport destination_airport : Airport)
    (distance_nm : ℚ) (recommended : Aircraft) (aircraft : Aircraft) : AircraftOption :=
  let outbound_pricing := calculate_leg_pricing today distance_nm aircraft req.departure_date
  let outbound_leg : FlightLeg :=
    ⟨origin_airport.iata_code, destination_airport.iata_code, distance_nm, outbound_pricing⟩
  let return_leg : Option FlightLeg :=
    match req.return_date with
    | some rd =>
      some ⟨destination_airport.iata_code, origin_airport.iata_code, distance_nm,
            calculate_leg_pricing today distance_nm aircraft rd⟩
    | none => none
  let total_price : ℚ :=
    match return_leg with
    | some rl => outbound_pricing.total_usd + rl.pricing.total_usd
    | none => outbound_pricing.total_usd
  ⟨aircraft, total_price, outbound_leg, return_leg, decide (aircraft = recommended)⟩

/-- `TripService.process_trip_request`. Raising `ValueError` is modelled
as `Except.error` with the source's message. `distance_nm` stands for
the exact decimal image of `calculate_distance`'s float result, which
the source computes once and shares between both legs. -/
def process_trip_request (today : Int) (req : TripRequest) (distance_nm : ℚ) :
    Except String QuoteResponse :=
  match find_airport req.origin, find_airport req.destination with
  | some origin_airport, some destination_airport =>
    let suitable_aircraft := get_aircraft_by_capacity req.passengers
    let recommended_aircraft := get_recommended_aircraft req.passengers
    let aircraft_options := suitable_aircraft.map
      (build_option today req origin_airport destination_airport distance_nm recommended_aircraft)
    let sorted_options := aircraft_options.mergeSort
      (fun x y => decide (x.total_price_usd ≤ y.total_price_usd))
    match sorted_options.find? (fun opt => opt.is_recommended) with
    | some recommended_option => Except.ok ⟨req, sorted_options, recommended_option⟩
    | none =>
      match sorted_options with
      | o1 :: _ => Except.ok ⟨req, sorted_options, o1⟩
      | [] => Except.error ("No suitable aircraft found")
  | _, _ => Except.error ("Invalid origin or destination")

/-- `QuoteViewHandler.handle_quote_request`: the quote endpoint performs
no validation of its own beyond field parsing; a `ValueError` raised by
the trip service is re-raised as `ValueError(f"Invalid data: {e}")`. -/
def handle_quote_request (today : Int) (req : TripRequest) (distance_nm : ℚ) :
    Except String QuoteResponse :=
  match process_trip_request today req distance_nm with
  | Except.ok resp => Except.ok resp
  | Except.error e => Except.error ("Invalid data: " ++ e)

/-! ### Helper lemmas -/

theorem lead_time_multiplier_pos (departure base : Int) :
    0 < calculate_lead_time_multiplier departure base := by
  unfold calculate_lead_time_multiplier
  split
  · norm_num
  · split <;> norm_num

theorem weekend_multiplier_pos (departure : Int) :
    0 < calculate_weekend_multiplier departure := by
  unfold calculate_weekend_multiplier
  split <;> norm_num

theorem leg_total_eq (today : Int) (d : ℚ) (ac : Aircraft) (dep : Int) :
    (calculate_leg_pricing today d ac dep).total_usd =
      (ac.base_nm_rate * max d 250 + 600 + 350) *
        (calculate_lead_time_multiplier dep today * calculate_weekend_multiplier dep) *
        (1 + 75/1000) := by
  simp only [calculate_leg_pricing, LANDING_FEE, SEGMENT_FEE, TAX_RATE, MIN_BILLABLE_NM]
  ring

theorem leg_total_lt_of_rate_lt (today : Int) (d : ℚ) (dep : Int) {a b : Aircraft}
    (h : a.base_nm_rate < b.base_nm_rate) :
    (calculate_leg_pricing today d a dep).total_usd <
      (calculate_leg_pricing today d b dep).total_usd := by
  rw [leg_total_eq, leg_total_eq]
  have hM : (0:ℚ) < max d 250 := lt_of_lt_of_le (by norm_num) (le_max_right d 250)
  have hm : 0 < calculate_lead_time_multiplier dep today * calculate_weekend_multiplier dep :=
    mul_pos (lead_time_multiplier_pos dep today) (weekend_multiplier_pos dep)
  have h1 : a.base_nm_rate * max d 250 + 600 + 350 < b.base_nm_rate * max d 250 + 600 + 350 := by
    have := mul_lt_mul_of_pos_right h hM
    linarith
  exact mul_lt_mul_of_pos_right (mul_lt_mul_of_pos_right h1 hm) (by norm_num)

theorem build_is_recommended (today : Int) (req : TripRequest) (o dst : Airport)
    (d : ℚ) (rec ac : Aircraft) :
    (build_option today req o dst d rec ac).is_recommended = decide (ac = rec) := rfl

theorem build_aircraft (today : Int) (req : TripRequest) (o dst : Airport)
    (d : ℚ) (rec ac : Aircraft) :
    (build_option today req o dst d rec ac).aircraft = ac := rfl

theorem build_total_lt (today : Int) (req : TripRequest) (o dst : Airport) (d : ℚ)
    (rec : Aircraft) {a b : Aircraft} (h : a.base_nm_rate < b.base_nm_rate) :
    (build_option today req o dst d rec a).total_price_usd <
      (build_option today req o dst d rec b).total_price_usd := by
  cases hr : req.return_date with
  | none =>
    simp only [build_option, hr]
    exact leg_total_lt_of_rate_lt today d req.departure_date h
  | some rd =>
    simp only [build_option, hr]
    exact add_lt_add (leg_total_lt_of_rate_lt today d req.departure_date h)
      (leg_total_lt_of_rate_lt today d rd h)

theorem catalog_rate_lt_pairwise :
    aircraftCatalog.Pairwise (fun a b => a.base_nm_rate < b.base_nm_rate) := by decide

theorem catalog_nodup : aircraftCatalog.Nodup := by decide

theorem suitable_rate_lt_pairwise (p : Int) :
    (get_aircraft_by_capacity p).Pairwise (fun a b => a.base_nm_rate < b.base_nm_rate) :=
  List.Pairwise.sublist (List.filter_sublist _) catalog_rate_lt_pairwise

theorem suitable_nodup (p : Int) : (get_aircraft_by_capacity p).Nodup :=
  List.Nodup.sublist (List.filter_sublist _) catalog_nodup

theorem options_pairwise_lt (today : Int) (req : TripRequest) (o dst : Airport)
    (d : ℚ) (rec : Aircraft) :
    ((get_aircraft_by_capacity req.passengers).map
        (build_option today req o dst d rec)).Pairwise
      (fun x y => x.total_price_usd < y.total_price_usd) := by
  rw [List.pairwise_map]
  exact (suitable_rate_lt_pairwise req.passengers).imp
    (fun hab => build_total_lt today req o dst d rec hab)

theorem sort_options_eq (l : List AircraftOption)
    (h : l.Pairwise (fun x y => x.total_price_usd < y.total_price_usd)) :
    l.mergeSort (fun x y => decide (x.total_price_usd ≤ y.total_price_usd)) = l :=
  List.mergeSort_of_sorted (h.imp (fun hab => decide_eq_true (le_of_lt hab)))

/-- Closed-form characterization of `process_trip_request`: because the
catalog rates strictly increase along catalog order, the options list is
already strictly sorted and the stable sort leaves it unchanged; the
recommended option is the one built from the first suitable aircraft. -/
theorem process_spec (today : Int) (req : TripRequest) (d : ℚ) :
    process_trip_request today req d =
      match find_airport req.origin, find_airport req.destination with
      | some o, some dst =>
        (match get_aircraft_by_capacity req.passengers with
         | [] => Except.error ("No suitable aircraft found")
         | hd :: tl =>
           Except.ok ⟨req, (hd :: tl).map (build_option today req o dst d hd),
                      build_option today req o dst d hd hd⟩)
      | _, _ => Except.error ("Invalid origin or destination") := by
  unfold process_trip_request
  cases ho : find_airport req.origin with
  | none => rfl
  | some o =>
    cases hdst : find_airport req.destination with
    | none => rfl
    | some dst =>
      cases hs : get_aircraft_by_capacity req.passengers with
      | nil => simp [List.mergeSort]
      | cons hd tl =>
        have hrec : get_recommended_aircraft req.passengers = hd := by
          unfold get_recommended_aircraft
          rw [hs]
        have hsort := sort_options_eq _
          (options_pairwise_lt today req o dst d (get_recommended_aircraft req.passengers))
        rw [hs] at hsort
        simp only [hrec] at hsort ⊢
        rw [hsort]
        rw [List.map_cons, List.find?_cons_of_pos _ (by rw [build_is_recommended]; exact decide_eq_true rfl)]

/-- The JFK catalog entry. -/
def jfkAirport : Airport :=
  ⟨"JFK".data, "New York".data, mkRat 406413 10000, mkRat (-737781) 10000⟩

/-- The LAX catalog entry. -/
def laxAirport : Airport :=
  ⟨"LAX".data, "Los Angeles".data, mkRat 339416 10000, mkRat (-1184085) 10000⟩

theorem find_airport_jfk : find_airport ['J', 'F', 'K'] = some jfkAirport := by decide

theorem find_airport_lax : find_airport ['L', 'A', 'X'] = some laxAirport := by decide

/-- Whether the quote pipeline produced a quote (`True`) or raised
(`False`). -/
def quoteSucceeds : Except String QuoteResponse → Bool
  | Except.ok _ => true
  | Except.error _ => false

/-! ### Claims -/

/-- C1: for every aircraft, departure date and non-negative distance `d`,
`calculate_leg_pricing` bills `max d 250` nautical miles, charges
`rate × billable` as base cost, and totals
`(base_cost + 600 + 350) × lead_time_multiplier × weekend_multiplier ×
(1 + 0.075)`, in exact arithmetic. -/
theorem leg_pricing_breakdown (today departure_date : Int) (aircraft : Aircraft)
    (d : ℚ) (hd : 0 ≤ d) :
    (calculate_leg_pricing today d aircraft departure_date).billable_nm = max d 250 ∧
    (calculate_leg_pricing today d aircraft departure_date).base_cost =
      aircraft.base_nm_rate * max d 250 ∧
    (calculate_leg_pricing today d aircraft departure_date).total_usd =
      ((calculate_leg_pricing today d aircraft departure_date).base_cost + 600 + 350) *
        calculate_lead_time_multiplier departure_date today *
        calculate_weekend_multiplier departure_date * (1 + 75/1000) := by
  refine ⟨rfl, rfl, ?_⟩
  have hb : (calculate_leg_pricing today d aircraft departure_date).base_cost =
      aircraft.base_nm_rate * max d 250 := rfl
  rw [leg_total_eq, hb]
  ring

/-- Witness for C1 at `today = 0`, departure 10 days out, the Very Light
Jet and a 300 nm leg. -/
theorem leg_pricing_breakdown_witness :
    (0:ℚ) ≤ 300 ∧
    ((calculate_leg_pricing 0 300 veryLightJet 10).billable_nm = max 300 250 ∧
     (calculate_leg_pricing 0 300 veryLightJet 10).base_cost =
       veryLightJet.base_nm_rate * max 300 250 ∧
     (calculate_leg_pricing 0 300 veryLightJet 10).total_usd =
       ((calculate_leg_pricing 0 300 veryLightJet 10).base_cost + 600 + 350) *
         calculate_lead_time_multiplier 10 0 *
         calculate_weekend_multiplier 10 * (1 + 75/1000)) :=
  ⟨by decide, leg_pricing_breakdown 0 10 veryLightJet 300 (by decide)⟩

/-- C2: the lead-time multiplier is exactly 1.30 when days-until-departure
is at most 3 (negative included), 1.15 when it is in (3, 7], 1.00 when it
exceeds 7, and it is monotonically non-increasing as the departure moves
further out. -/
theorem lead_time_multiplier_brackets (departure base : Int) :
    (departure - base ≤ 3 → calculate_lead_time_multiplier departure base = 13/10) ∧
    (3 < departure - base → departure - base ≤ 7 →
      calculate_lead_time_multiplier departure base = 23/20) ∧
    (7 < departure - base → calculate_lead_time_multiplier departure base = 1) ∧
    (∀ departure' : Int, departure ≤ departure' →
      calculate_lead_time_multiplier departure' base ≤
        calculate_lead_time_multiplier departure base) := by
  refine ⟨?_, ?_, ?_, ?_⟩
  · intro h
    unfold calculate_lead_time_multiplier
    rw [if_pos h]
  · intro h1 h2
    unfold calculate_lead_time_multiplier
    rw [if_neg (by omega), if_pos h2]
  · intro h
    unfold calculate_lead_time_multiplier
    rw [if_neg (by omega), if_neg (by omega)]
  · intro departure' hle
    unfold calculate_lead_time_multiplier
    split_ifs <;> (first | omega | norm_num)

/-- Witness for C2 at 2, 5 and 9 days of lead time. -/
theorem lead_time_multiplier_brackets_witness :
    calculate_lead_time_multiplier 2 0 = 13/10 ∧
    calculate_lead_time_multiplier 5 0 = 23/20 ∧
    calculate_lead_time_multiplier 9 0 = 1 ∧
    calculate_lead_time_multiplier 9 0 ≤ calculate_lead_time_multiplier 5 0 :=
  ⟨(lead_time_multiplier_brackets 2 0).1 (by decide),
   (lead_time_multiplier_brackets 5 0).2.1 (by decide) (by decide),
   (lead_time_multiplier_brackets 9 0).2.2.1 (by decide),
   (lead_time_multiplier_brackets 5 0).2.2.2 9 (by decide)⟩

/-- C3: the great-circle distance is symmetric, vanishes on the diagonal,
and the square root fed to the arcsine is clamped to at most 1. -/
theorem distance_symm_zero_clamped :
    (∀ a b : Airport, calculate_distance a b = calculate_distance b a) ∧
    (∀ a : Airport, calculate_distance a a = 0) ∧
    (∀ a b : Airport, min 1 (Real.sqrt (haversine_a a b)) ≤ 1) := by
  have e1 : ∀ x y : ℝ, Real.sin ((x - y)/2) ^ 2 = Real.sin ((y - x)/2) ^ 2 := by
    intro x y
    rw [show (x - y)/2 = -((y - x)/2) by ring, Real.sin_neg]
    ring
  refine ⟨?_, ?_, ?_⟩
  · intro a b
    have h : haversine_a a b = haversine_a b a := by
      unfold haversine_a
      dsimp only
      rw [e1 (to_radians b.latitude) (to_radians a.latitude),
        e1 (to_radians b.longitude) (to_radians a.longitude),
        mul_comm (Real.cos (to_radians a.latitude)) (Real.cos (to_radians b.latitude))]
    unfold calculate_distance
    rw [h]
  · intro a
    have h : haversine_a a a = 0 := by
      unfold haversine_a
      simp
    unfold calculate_distance
    rw [h, Real.sqrt_zero]
    rw [min_eq_right zero_le_one, Real.arcsin_zero]
    ring
  · intro a b
    exact min_le_left 1 _

/-- C5: for every passenger count exceeding every aircraft's capacity,
the recommendation falls back to the Heavy Jet (capacity 16, the largest
catalog aircraft), the capacity filter is empty, and quote building
fails with the no-suitable-aircraft error instead of producing options
from the fallback aircraft. -/
theorem overflow_passengers_no_aircraft (p : Int)
    (hp : aircraftCatalog.all (fun ac => decide ((ac.capacity : Int) < p)) = true) :
    get_recommended_aircraft p = heavyJet ∧
    heavyJet.capacity = 16 ∧
    aircraftCatalog.all (fun ac => decide (ac.capacity ≤ heavyJet.capacity)) = true ∧
    get_aircraft_by_capacity p = [] ∧
    ∀ (today departure : Int) (d : ℚ),
      process_trip_request today ⟨"JFK".data, "LAX".data, departure, none, p⟩ d =
        Except.error ("No suitable aircraft found") := by
  have hall := List.all_eq_true.mp hp
  have hempty : get_aircraft_by_capacity p = [] := by
    unfold get_aircraft_by_capacity
    rw [List.filter_eq_nil_iff]
    intro ac hac
    have hlt : (ac.capacity : Int) < p := of_decide_eq_true (hall ac hac)
    simp only [Aircraft.can_accommodate, decide_eq_true_eq]
    omega
  have hrec : get_recommended_aircraft p = heavyJet := by
    unfold get_recommended_aircraft
    rw [hempty]
    decide
  refine ⟨hrec, by decide, by decide, hempty, ?_⟩
  intro today departure d
  rw [process_spec]
  simp only [find_airport_jfk, find_airport_lax, hempty]

/-- Witness for C5 at 20 passengers (the claim's example count), with
the quote attempted at `today = 0`, departure day 10 and a 2000 nm
leg. -/
theorem overflow_passengers_no_aircraft_witness :
    aircraftCatalog.all (fun ac => decide ((ac.capacity : Int) < 20)) = true ∧
    get_recommended_aircraft 20 = heavyJet ∧
    heavyJet.capacity = 16 ∧
    aircraftCatalog.all (fun ac => decide (ac.capacity ≤ heavyJet.capacity)) = true ∧
    get_aircraft_by_capacity 20 = [] ∧
    process_trip_request 0 ⟨"JFK".data, "LAX".data, 10, none, 20⟩ 2000 =
      Except.error ("No suitable aircraft found") :=
  ⟨by decide,
   (overflow_passengers_no_aircraft 20 (by decide)).1,
   (overflow_passengers_no_aircraft 20 (by decide)).2.1,
   (overflow_passengers_no_aircraft 20 (by decide)).2.2.1,
   (overflow_passengers_no_aircraft 20 (by decide)).2.2.2.1,
   (overflow_passengers_no_aircraft 20 (by decide)).2.2.2.2 0 10 2000⟩

/-- C7 counterexample: `recommend(4)` is not the Light Jet; the Very
Light Jet is a catalog aircraft with capacity exactly 4, which already
satisfies a 4-passenger request and is strictly smaller than the Light
Jet. -/
theorem recommend_four_counterexample :
    get_recommended_aircraft 4 ≠ lightJet ∧
    veryLightJet ∈ aircraftCatalog ∧
    4 ≤ veryLightJet.capacity ∧
    veryLightJet.capacity < lightJet.capacity := by decide

/-- C7 amended: with 4 passengers every catalog aircraft qualifies
(capacity ≥ 4 holds for all five); the smallest qualifying aircraft is
the Very Light Jet (capacity 4), and it is the recommended aircraft. -/
theorem recommend_four :
    get_aircraft_by_capacity 4 = aircraftCatalog ∧
    get_recommended_aircraft 4 = veryLightJet ∧
    veryLightJet.capacity = 4 := by decide

/-- C8 counterexample: a quote request with zero passengers is not
rejected: every aircraft passes the capacity check and the quote handler
returns a quote instead of an error. -/
theorem zero_passengers_counterexample :
    get_aircraft_by_capacity 0 = aircraftCatalog ∧
    quoteSucceeds (handle_quote_request 0 ⟨"JFK".data, "LAX".data, 10, none, 0⟩ 2000) = true := by
  constructor
  · decide
  · unfold handle_quote_request
    rw [process_spec]
    simp only [find_airport_jfk, find_airport_lax,
      show get_aircraft_by_capacity 0 = aircraftCatalog from by decide, aircraftCatalog]
    rfl

/-- C8 amended: for every non-positive passenger count the quote path
performs no validation: each aircraft's capacity check `p ≤ capacity`
succeeds, so the handler computes and returns a quote rather than an
invalid-input error. -/
theorem nonpositive_passengers_quoted (today departure : Int) (d : ℚ) (p : Int)
    (hp : p ≤ 0) :
    get_aircraft_by_capacity p = aircraftCatalog ∧
    quoteSucceeds
      (handle_quote_request today ⟨"JFK".data, "LAX".data, departure, none, p⟩ d) = true := by
  have hcat : get_aircraft_by_capacity p = aircraftCatalog := by
    unfold get_aircraft_by_capacity
    apply List.filter_eq_self.mpr
    intro ac _
    exact decide_eq_true (le_trans hp (Int.natCast_nonneg ac.capacity))
  refine ⟨hcat, ?_⟩
  unfold handle_quote_request
  rw [process_spec]
  simp only [find_airport_jfk, find_airport_lax, hcat, aircraftCatalog]
  rfl

/-- Witness for C8's amended claim at zero passengers. -/
theorem nonpositive_passengers_quoted_witness :
    get_aircraft_by_capacity 0 = aircraftCatalog ∧
    quoteSucceeds
      (handle_quote_request 0 ⟨"JFK".data, "LAX".data, 10, none, 0⟩ 2000) = true :=
  nonpositive_passengers_quoted 0 10 2000 0 (by decide)

/-- Any successfully produced quote response is the catalog-ordered
options list over the non-empty suitable set, with the option of the
first suitable aircraft designated as recommended. -/
theorem process_ok_elim (today : Int) (req : TripRequest) (d : ℚ) (resp : QuoteResponse)
    (h : process_trip_request today req d = Except.ok resp) :
    ∃ o dst hd tl,
      find_airport req.origin = some o ∧
      find_airport req.destination = some dst ∧
      get_aircraft_by_capacity req.passengers = hd :: tl ∧
      resp = ⟨req, (hd :: tl).map (build_option today req o dst d hd),
              build_option today req o dst d hd hd⟩ := by
  rw [process_spec] at h
  cases ho : find_airport req.origin with
  | none =>
    rw [ho] at h
    simp at h
  | some o =>
    cases hdst : find_airport req.destination with
    | none =>
      rw [ho, hdst] at h
      simp at h
    | some dst =>
      rw [ho, hdst] at h
      cases hs : get_aircraft_by_capacity req.passengers with
      | nil =>
        rw [hs] at h
        simp at h
      | cons hd tl =>
        rw [hs] at h
        refine ⟨o, dst, hd, tl, rfl, rfl, rfl, ?_⟩
        injection h with h2
        exact h2.symm

/-- C4: every produced quote lists its aircraft options in ascending
order of total price; ties keep catalog order (the list is exactly the
catalog-ordered options list, the sort being stable and the totals
already strictly increasing); and exactly one option carries the
recommended flag. -/
theorem quote_options_sorted_one_recommended (today : Int) (req : TripRequest)
    (d : ℚ) (resp : QuoteResponse)
    (h : process_trip_request today req d = Except.ok resp) :
    resp.aircraft_options.Pairwise
      (fun x y => x.total_price_usd ≤ y.total_price_usd) ∧
    resp.aircraft_options.countP (fun opt => opt.is_recommended) = 1 ∧
    resp.aircraft_options.map (fun opt => opt.aircraft) =
      get_aircraft_by_capacity req.passengers := by
  obtain ⟨o, dst, hd, tl, ho, hdst, hs, rfl⟩ := process_ok_elim today req d resp h
  refine ⟨?_, ?_, ?_⟩
  · have hp := options_pairwise_lt today req o dst d hd
    rw [hs] at hp
    exact hp.imp le_of_lt
  · show ((hd :: tl).map (build_option today req o dst d hd)).countP
      (fun opt => opt.is_recommended) = 1
    rw [List.countP_map]
    have hnd : (hd :: tl).Nodup := by
      rw [← hs]
      exact suitable_nodup req.passengers
    have h0 : tl.countP
        ((fun opt => opt.is_recommended) ∘ build_option today req o dst d hd) = 0 := by
      rw [List.countP_eq_zero]
      intro a ha
      have hne : ¬ (a = hd) := by
        intro e
        subst e
        exact (List.nodup_cons.mp hnd).1 ha
      simp [Function.comp, build_is_recommended, hne]
    rw [List.countP_cons, h0]
    simp [Function.comp, build_is_recommended]
  · show ((hd :: tl).map (build_option today req o dst d hd)).map (fun opt => opt.aircraft) =
      get_aircraft_by_capacity req.passengers
    rw [hs, List.map_map]
    have hcomp : ((fun opt => opt.aircraft) ∘ build_option today req o dst d hd) =
        fun ac => ac := by
      funext ac
      rfl
    rw [hcomp]
    simp

/-- C9: in every produced quote, each option prices the outbound leg
over the shared distance with the departure date; with no return date
the option total is the outbound total alone and there is no return leg;
with a return date the return leg reverses the endpoints, is priced over
the same distance with the return date, and the option total is the sum
of the two leg totals. -/
theorem round_trip_pricing (today : Int) (req : TripRequest) (d : ℚ)
    (resp : QuoteResponse)
    (h : process_trip_request today req d = Except.ok resp) :
    (∀ opt ∈ resp.aircraft_options,
      opt.outbound_leg.pricing = calculate_leg_pricing today d opt.aircraft req.departure_date ∧
      opt.outbound_leg.distance_nm = d ∧
      (req.return_date = none → opt.return_leg = none ∧
        opt.total_price_usd =
          (calculate_leg_pricing today d opt.aircraft req.departure_date).total_usd)) ∧
    (∀ rd : Int, req.return_date = some rd → ∀ opt ∈ resp.aircraft_options,
      opt.return_leg = some ⟨opt.outbound_leg.destination, opt.outbound_leg.origin, d,
        calculate_leg_pricing today d opt.aircraft rd⟩ ∧
      opt.total_price_usd =
        (calculate_leg_pricing today d opt.aircraft req.departure_date).total_usd +
          (calculate_leg_pricing today d opt.aircraft rd).total_usd) := by
  obtain ⟨o, dst, hd, tl, ho, hdst, hs, rfl⟩ := process_ok_elim today req d resp h
  constructor
  · intro opt hopt
    obtain ⟨ac, hac, rfl⟩ := List.mem_map.mp hopt
    cases hr : req.return_date with
    | none => simp [build_option, hr]
    | some rd => simp [build_option, hr]
  · intro rd hr opt hopt
    obtain ⟨ac, hac, rfl⟩ := List.mem_map.mp hopt
    simp [build_option, hr]

/-- C10: in every produced quote, the designated recommended option is
the head of the price-sorted options list, carries the recommended flag,
is built from the catalog's recommended (smallest suitable) aircraft,
and its total is the minimum over all options. -/
theorem recommended_option_cheapest (today : Int) (req : TripRequest) (d : ℚ)
    (resp : QuoteResponse)
    (h : process_trip_request today req d = Except.ok resp) :
    resp.aircraft_options.head? = some resp.recommended_aircraft ∧
    resp.recommended_aircraft.is_recommended = true ∧
    resp.recommended_aircraft.aircraft = get_recommended_aircraft req.passengers ∧
    resp.aircraft_options.all
      (fun opt =>
        decide (resp.recommended_aircraft.total_price_usd ≤ opt.total_price_usd)) = true := by
  obtain ⟨o, dst, hd, tl, ho, hdst, hs, rfl⟩ := process_ok_elim today req d resp h
  have hrec : get_recommended_aircraft req.passengers = hd := by
    unfold get_recommended_aircraft
    rw [hs]
  refine ⟨rfl, ?_, ?_, ?_⟩
  · rw [build_is_recommended]
    exact decide_eq_true rfl
  · rw [build_aircraft, hrec]
  · have hp := options_pairwise_lt today req o dst d hd
    rw [hs] at hp
    rw [List.all_eq_true]
    intro opt hopt
    rcases List.mem_cons.mp hopt with he | ht
    · subst he
      exact decide_eq_true le_rfl
    · rw [List.map_cons, List.pairwise_cons] at hp
      exact decide_eq_true (le_of_lt (hp.1 opt ht))

/-! ### Resolution-order analysis for `find_airport` (C6) -/

theorem chunk_length_le {α : Type} {l₁ l₂ : List α} (h : l₁ <:+: l₂) :
    l₁.length ≤ l₂.length := by
  obtain ⟨s, t, rfl⟩ := h
  simp only [List.length_append]
  omega

theorem chunk_eq_of_length {α : Type} {l₁ l₂ : List α} (h : l₁ <:+: l₂)
    (hl : l₂.length ≤ l₁.length) : l₁ = l₂ := by
  obtain ⟨s, t, rfl⟩ := h
  simp only [List.length_append] at hl
  have hs : s = [] := List.length_eq_zero.mp (by omega)
  have ht : t = [] := List.length_eq_zero.mp (by omega)
  subst hs
  subst ht
  simp

theorem chunk_trans {α : Type} {l₁ l₂ l₃ : List α} (h1 : l₁ <:+: l₂)
    (h2 : l₂ <:+: l₃) : l₁ <:+: l₃ := by
  obtain ⟨s, t, rfl⟩ := h1
  obtain ⟨u, v, rfl⟩ := h2
  exact ⟨u ++ s, t ++ v, by simp⟩

/-- The five genuinely new keys the alias loop appends to
`_city_to_iatas` (the other five aliases already exist as city names and
only rebind their unchanged values in place). -/
def aliasKeysTail : List (Token × List Token) :=
  [("la".data, ["LAX".data]),
   ("nyc".data, ["JFK".data, "LGA".data]),
   ("ny".data, ["JFK".data, "LGA".data]),
   ("vegas".data, ["LAS".data]),
   ("sf".data, ["SFO".data])]

theorem cityToIatas_split : cityToIatas = cityToIatasBase ++ aliasKeysTail := by decide

/-- Once the exact-match stage has failed, the substring stage scans the
alias keys in vain: the short aliases cannot contain a 3-character-plus
token, a token filling all of "nyc" would have hit the exact stage, and
any token inside "vegas" also occurs inside the earlier city name
"las vegas". Hence the substring scan over all keys equals the scan over
the city-name keys alone. -/
theorem stage3_eq (city : Token) (h2 : lookupTok city cityToIatas = none) :
    cityToIatas.find? (fun kv => decide (city <:+: kv.1 ∧ 3 ≤ city.length)) =
      cityToIatasBase.find? (fun kv => decide (city <:+: kv.1 ∧ 3 ≤ city.length)) := by
  rw [cityToIatas_split, List.find?_append]
  cases hbase : cityToIatasBase.find? (fun kv => decide (city <:+: kv.1 ∧ 3 ≤ city.length)) with
  | some kv => simp
  | none =>
    have htail : aliasKeysTail.find?
        (fun kv => decide (city <:+: kv.1 ∧ 3 ≤ city.length)) = none := by
      rw [List.find?_eq_none]
      intro kv hkv hp
      obtain ⟨hc, hlen⟩ := of_decide_eq_true hp
      have hblock := List.find?_eq_none.mp hbase
      simp only [aliasKeysTail, List.mem_cons, List.not_mem_nil, or_false] at hkv
      rcases hkv with h | h | h | h | h
      · subst h
        have := chunk_length_le hc
        simp at this
        omega
      · subst h
        have he : city = "nyc".data :=
          chunk_eq_of_length hc (by simpa using hlen)
        subst he
        exact absurd h2 (by decide)
      · subst h
        have := chunk_length_le hc
        simp at this
        omega
      · subst h
        have hv : city <:+: "las vegas".data :=
          chunk_trans hc (by decide)
        have hmem : ("las vegas".data, ["LAS".data]) ∈ cityToIatasBase := by decide
        exact absurd (decide_eq_true (⟨hv, hlen⟩ :
          city <:+: ("las vegas".data, ["LAS".data]).1 ∧ 3 ≤ city.length))
          (hblock _ hmem)
      · subst h
        have := chunk_length_le hc
        simp at this
        omega
    rw [htail]
    simp

/-- C6: `find_airport` resolves exactly as the spec's three-stage cascade
describes: code, then exact city or alias, then substring over city
names only for tokens of 3 characters or more — the alias keys never
influence the substring stage. In particular "la" resolves to the Los
Angeles alias (LAX) and "bo" is not found. -/
theorem find_airport_resolution :
    (∀ token : Token, find_airport token = find_airport_spec token) ∧
    find_airport ("la".data) = some laxAirport ∧
    find_airport ("bo".data) = none := by
  refine ⟨?_, by decide, by decide⟩
  intro token
  unfold find_airport find_airport_spec
  dsimp only
  cases h1 : lookupTok (upperTok (stripTok token)) airportsTable with
  | some ap => rfl
  | none =>
    cases h2 : lookupTok (lowerTok (stripTok token)) cityToIatas with
    | some iatas => rfl
    | none =>
      rw [stage3_eq _ h2]

/-! ### Concrete witness fixtures -/

theorem suitable_four : get_aircraft_by_capacity 4 = aircraftCatalog := by decide

/-- A concrete one-way request: JFK to LAX at ordinal day 20, 4 pax. -/
def oneWayReq : TripRequest := ⟨"JFK".data, "LAX".data, 20, none, 4⟩

/-- The quote produced for `oneWayReq` (`today = 0`, 2000 nm leg). -/
def oneWayResp : QuoteResponse :=
  ⟨oneWayReq,
   aircraftCatalog.map (build_option 0 oneWayReq jfkAirport laxAirport 2000 veryLightJet),
   build_option 0 oneWayReq jfkAirport laxAirport 2000 veryLightJet veryLightJet⟩

/-- The cheapest (Very Light Jet) option of `oneWayResp`. -/
def oneWayOpt : AircraftOption :=
  build_option 0 oneWayReq jfkAirport laxAirport 2000 veryLightJet veryLightJet

theorem oneWay_ok : process_trip_request 0 oneWayReq 2000 = Except.ok oneWayResp := by
  rw [process_spec]
  simp only [oneWayReq, oneWayResp, find_airport_jfk, find_airport_lax,
    suitable_four, aircraftCatalog]

theorem oneWayOpt_mem : oneWayOpt ∈ oneWayResp.aircraft_options := by
  show oneWayOpt ∈
    aircraftCatalog.map (build_option 0 oneWayReq jfkAirport laxAirport 2000 veryLightJet)
  exact List.mem_map.mpr ⟨veryLightJet, by simp [aircraftCatalog], rfl⟩

/-- A concrete round trip: JFK to LAX out on day 20, back on day 22. -/
def roundReq : TripRequest := ⟨"JFK".data, "LAX".data, 20, some 22, 4⟩

/-- The quote produced for `roundReq` (`today = 0`, 2000 nm leg). -/
def roundResp : QuoteResponse :=
  ⟨roundReq,
   aircraftCatalog.map (build_option 0 roundReq jfkAirport laxAirport 2000 veryLightJet),
   build_option 0 roundReq jfkAirport laxAirport 2000 veryLightJet veryLightJet⟩

/-- The cheapest (Very Light Jet) option of `roundResp`. -/
def roundOpt : AircraftOption :=
  build_option 0 roundReq jfkAirport laxAirport 2000 veryLightJet veryLightJet

theorem round_ok : process_trip_request 0 roundReq 2000 = Except.ok roundResp := by
  rw [process_spec]
  simp only [roundReq, roundResp, find_airport_jfk, find_airport_lax,
    suitable_four, aircraftCatalog]

theorem roundOpt_mem : roundOpt ∈ roundResp.aircraft_options := by
  show roundOpt ∈
    aircraftCatalog.map (build_option 0 roundReq jfkAirport laxAirport 2000 veryLightJet)
  exact List.mem_map.mpr ⟨veryLightJet, by simp [aircraftCatalog], rfl⟩

/-- Witness for C4 on the concrete one-way quote. -/
theorem quote_options_sorted_one_recommended_witness :
    oneWayResp.aircraft_options.Pairwise
      (fun x y => x.total_price_usd ≤ y.total_price_usd) ∧
    oneWayResp.aircraft_options.countP (fun opt => opt.is_recommended) = 1 ∧
    oneWayResp.aircraft_options.map (fun opt => opt.aircraft) =
      get_aircraft_by_capacity oneWayReq.passengers :=
  quote_options_sorted_one_recommended 0 oneWayReq 2000 oneWayResp oneWay_ok

/-- Witness for C9 on the concrete one-way and round-trip quotes. -/
theorem round_trip_pricing_witness :
    (oneWayOpt.outbound_leg.pricing =
        calculate_leg_pricing 0 2000 oneWayOpt.aircraft oneWayReq.departure_date ∧
      oneWayOpt.outbound_leg.distance_nm = 2000) ∧
    (oneWayOpt.return_leg = none ∧
      oneWayOpt.total_price_usd =
        (calculate_leg_pricing 0 2000 oneWayOpt.aircraft oneWayReq.departure_date).total_usd) ∧
    (roundOpt.return_leg = some ⟨roundOpt.outbound_leg.destination,
        roundOpt.outbound_leg.origin, 2000,
        calculate_leg_pricing 0 2000 roundOpt.aircraft 22⟩ ∧
      roundOpt.total_price_usd =
        (calculate_leg_pricing 0 2000 roundOpt.aircraft roundReq.departure_date).total_usd +
          (calculate_leg_pricing 0 2000 roundOpt.aircraft 22).total_usd) :=
  ⟨⟨((round_trip_pricing 0 oneWayReq 2000 oneWayResp oneWay_ok).1 oneWayOpt oneWayOpt_mem).1,
    ((round_trip_pricing 0 oneWayReq 2000 oneWayResp oneWay_ok).1 oneWayOpt oneWayOpt_mem).2.1⟩,
   ((round_trip_pricing 0 oneWayReq 2000 oneWayResp oneWay_ok).1 oneWayOpt oneWayOpt_mem).2.2 rfl,
   (round_trip_pricing 0 roundReq 2000 roundResp round_ok).2 22 rfl roundOpt roundOpt_mem⟩

/-- Witness for C10 on the concrete one-way quote. -/
theorem recommended_option_cheapest_witness :
    oneWayResp.aircraft_options.head? = some oneWayResp.recommended_aircraft ∧
    oneWayResp.recommended_aircraft.is_recommended = true ∧
    oneWayResp.recommended_aircraft.aircraft = get_recommended_aircraft oneWayReq.passengers ∧
    oneWayResp.aircraft_options.all
      (fun opt =>
        decide (oneWayResp.recommended_aircraft.total_price_usd ≤ opt.total_price_usd)) = true :=
  recommended_option_cheapest 0 oneWayReq 2000 oneWayResp oneWay_ok

end Elevate
